import Mathlib

/-!
Verification of the `fowler.dev` static-site infrastructure stack.

The repository declares one CDK stack (`FowlerDevStack`) that provisions an
S3 bucket, a CloudFront distribution bound to it through an Origin Access
Control, a DNS-validated certificate, Route53 alias records, and a scoped
deployment IAM user.  Stack synthesis is a pure function of the synthesis
environment (account, region); we embed it as such below and prove the
spec's claims about the synthesized resource graph.
-/

namespace FowlerDev

/-! ## Viewer-request rewrite function

The CloudFront function `UrlRewriteFn` is declared inline in the stack.
Its handler reads the request uri; when the uri is truthy and longer than
one character it appends `index.html` if the last character is a slash,
and appends `/index.html` if the uri contains no dot at all; in every
other case the uri is returned unchanged. -/

/-- Embedding of the `UrlRewriteFn` handler body.  The JavaScript guard
`uri && uri.length > 1` holds exactly when the string has length greater
than one; `charAt(uri.length - 1)` is the last character; and
`indexOf stops at -1` exactly when the character occurs nowhere in the
whole string. -/
def urlRewrite (uri : String) : String :=
  if 1 < uri.length then
    if uri.toList.getLastD ' ' = '/' then uri ++ "index.html"
    else if (uri.toList.contains '.') = false then uri ++ "/index.html"
    else uri
  else uri

/-- The final segment of a path: the characters after the last slash. -/
def finalSegment (path : String) : List Char :=
  (path.toList.reverse.takeWhile (fun c => c != '/')).reverse

/-- The rewrite rule exactly as the claim words it: if the path ends in a
slash, append `index.html`; else if the final segment of the path contains
no dot, append `/index.html`; otherwise leave the path unchanged.  (No
length guard, and the dot test looks only at the final segment.) -/
def claimRewrite (path : String) : String :=
  if path.toList.getLastD ' ' = '/' then path ++ "index.html"
  else if ((finalSegment path).contains '.') = false then
    path ++ "/index.html"
  else path

/-- The rewrite rule as amended by the code's actual behaviour: paths of
length at most one (in particular the bare root path) are returned
unchanged, and the dot test looks at the whole path, not only its final
segment. -/
def amendedRewrite (path : String) : String :=
  if path.length ≤ 1 then path
  else if path.toList.getLastD ' ' = '/' then path ++ "index.html"
  else if path.toList.contains '.' then path
  else path ++ "/index.html"

/-! ## Data model of the synthesized stack

Each structure mirrors exactly the properties the stack's constructor sets
on the corresponding CDK construct. -/

/-- Synthesis environment: the deploying account and region, as passed via
`env` in the CDK app entrypoint (`CDK_DEFAULT_ACCOUNT` / `CDK_DEFAULT_REGION`). -/
structure Env where
  account : String
  region : String
deriving Repr, DecidableEq

/-- The four flags of `s3.BlockPublicAccess`. -/
structure BlockPublicAccessFlags where
  blockPublicAcls : Bool
  blockPublicPolicy : Bool
  ignorePublicAcls : Bool
  restrictPublicBuckets : Bool
deriving Repr, DecidableEq

/-- `s3.BlockPublicAccess.BLOCK_ALL`: all four flags enabled. -/
def blockAllFlags : BlockPublicAccessFlags :=
  { blockPublicAcls := true
    blockPublicPolicy := true
    ignorePublicAcls := true
    restrictPublicBuckets := true }

/-- An IAM policy statement as this stack builds them: an effect, actions,
resources, optional principals, and an optional `AWS:SourceArn`
`StringEquals` condition. -/
structure PolicyStatement where
  effect : String
  actions : List String
  resources : List String
  principals : List String
  sourceArnCondition : Option String
deriving Repr, DecidableEq

/-- Properties set on the `SiteBucket` construct. -/
structure BucketProps where
  bucketName : String
  websiteIndexDocument : Option String
  websiteErrorDocument : Option String
  publicReadAccess : Bool
  blockPublicAccess : BlockPublicAccessFlags
  removalPolicy : String
  autoDeleteObjects : Bool
deriving Repr, DecidableEq

/-- The `originAccessControlConfig` of the `OAC` construct. -/
structure OriginAccessControlConfig where
  name : String
  originAccessControlOriginType : String
  signingBehavior : String
  signingProtocol : String
  description : String
deriving Repr, DecidableEq

/-- Properties of the `SiteCertificate` (`DnsValidatedCertificate`)
construct.  `dnsValidated` records that the construct used is the
DNS-validated certificate construct, whose validation records are created
in `hostedZoneName`. -/
structure CertificateProps where
  domainName : String
  hostedZoneName : String
  region : String
  subjectAlternativeNames : List String
  dnsValidated : Bool
deriving Repr, DecidableEq

/-- One entry of the distribution's `errorResponses` list.  The TTL is in
seconds (`cdk.Duration.minutes n` is `n * 60` seconds). -/
structure ErrorResponse where
  httpStatus : Nat
  responseHttpStatus : Nat
  responsePagePath : String
  ttlSeconds : Nat
deriving Repr, DecidableEq

/-- `cdk.Duration.minutes n` in seconds. -/
def durationMinutes (n : Nat) : Nat := n * 60

/-- Properties of the `Distribution` construct.  `distributionId` is the
construct's assigned identifier attribute as resolved at synthesis
(a deterministic reference token). -/
structure DistributionProps where
  originBucketName : String
  viewerProtocolPolicy : String
  cachePolicy : String
  functionAssociations : List (String × String)
  domainNames : List String
  certificateDomainName : String
  defaultRootObject : String
  errorResponses : List ErrorResponse
  distributionId : String
deriving Repr, DecidableEq

/-- A raw property patch applied to the synthesized distribution resource:
either an override setting a property path to a value, or a deletion
override removing a property path. -/
inductive PropertyPatch where
  | setProp (path : String) (value : String)
  | deleteProp (path : String)
deriving Repr, DecidableEq

/-- A Route53 `ARecord` as this stack creates them: the zone it lives in,
an optional record name (absent means the zone apex), and the alias
target construct. -/
structure ARecordProps where
  zoneName : String
  recordName : Option String
  aliasTarget : String
deriving Repr, DecidableEq

/-- The hostname a Route53 record answers for: the zone apex when no
record name is given, otherwise the record name qualified by the zone. -/
def recordHostname (r : ARecordProps) : String :=
  match r.recordName with
  | none => r.zoneName
  | some n => n ++ "." ++ r.zoneName

/-- An IAM policy: a list of statements. -/
structure IamPolicy where
  statements : List PolicyStatement
deriving Repr, DecidableEq

/-- A stack output: logical id, value, description. -/
structure StackOutput where
  outputId : String
  value : String
  description : String
deriving Repr, DecidableEq

/-- Everything the `FowlerDevStack` constructor declares. -/
structure Stack where
  siteBucket : BucketProps
  oac : OriginAccessControlConfig
  hostedZoneName : String
  certificate : CertificateProps
  urlRewriteFnId : String
  distribution : DistributionProps
  distributionPatches : List PropertyPatch
  bucketPolicyStatements : List PolicyStatement
  dnsRecords : List ARecordProps
  deployUserName : String
  deployPolicy : IamPolicy
  userAttachedPolicies : List String
  outputs : List StackOutput
deriving Repr, DecidableEq

/-! ## The stack synthesis function -/

/-- The hard-coded domain constant. -/
def domainName : String := "fowler.dev"

/-- Replacement of every occurrence of a character by another, which is
what the source's `replace` with a global single-character pattern does. -/
def replaceAllChar (s : String) (old new : Char) : String :=
  ⟨s.data.map (fun c => if c = old then new else c)⟩

/-- `sanitizedDomain`: the domain with every dot replaced by a dash. -/
def sanitizedDomain : String := replaceAllChar domainName '.' '-'

/-- `bucketName`: sanitized domain, account id, and the `hugo-site`
suffix. -/
def mkBucketName (account : String) : String :=
  sanitizedDomain ++ "-" ++ account ++ "-hugo-site"

/-- The ARN of an S3 bucket with the given name (what
`siteBucket.bucketArn` resolves to for an explicitly named bucket). -/
def bucketArnOf (name : String) : String := "arn:aws:s3:::" ++ name

/-- `arn:aws:cloudfront::account:distribution/id`, the ARN format the
stack interpolates for the distribution. -/
def distributionArn (account distId : String) : String :=
  "arn:aws:cloudfront::" ++ account ++ ":distribution/" ++ distId

/-- The synthesis-time reference token for `distribution.distributionId`:
a deterministic reference to the `Distribution` construct. -/
def distributionIdToken : String := "ref:Distribution.Id"

/-- The synthesis-time reference token for
`distribution.distributionDomainName`. -/
def distributionDomainToken : String := "ref:Distribution.DomainName"

/-- The synthesis-time reference token for `oac.attrId`. -/
def oacAttrIdToken : String := "ref:OAC.Id"

/-- The stack synthesis: the resources and properties the
`FowlerDevStack` constructor declares, as a pure function of the
synthesis environment.  Mirrors the constructor body statement by
statement. -/
def fowlerDevStack (env : Env) : Stack :=
  let bucketName := mkBucketName env.account
  let bArn := bucketArnOf bucketName
  let dArn := distributionArn env.account distributionIdToken
  { siteBucket :=
      { bucketName := bucketName
        websiteIndexDocument := none
        websiteErrorDocument := none
        publicReadAccess := false
        blockPublicAccess := blockAllFlags
        removalPolicy := "destroy"
        autoDeleteObjects := true }
    oac :=
      { name := domainName ++ "-oac"
        originAccessControlOriginType := "s3"
        signingBehavior := "always"
        signingProtocol := "sigv4"
        description := "OAC for " ++ domainName }
    hostedZoneName := domainName
    certificate :=
      { domainName := domainName
        hostedZoneName := domainName
        region := "us-east-1"
        subjectAlternativeNames := ["www." ++ domainName]
        dnsValidated := true }
    urlRewriteFnId := "UrlRewriteFn"
    distribution :=
      { originBucketName := bucketName
        viewerProtocolPolicy := "redirect-to-https"
        cachePolicy := "caching-optimized"
        functionAssociations := [("viewer-request", "UrlRewriteFn")]
        domainNames := [domainName, "www." ++ domainName]
        certificateDomainName := domainName
        defaultRootObject := "index.html"
        errorResponses :=
          [ { httpStatus := 403
              responseHttpStatus := 404
              responsePagePath := "/404.html"
              ttlSeconds := durationMinutes 30 }
          , { httpStatus := 404
              responseHttpStatus := 404
              responsePagePath := "/404.html"
              ttlSeconds := durationMinutes 30 } ]
        distributionId := distributionIdToken }
    distributionPatches :=
      [ .setProp "DistributionConfig.Origins.0.OriginAccessControlId" oacAttrIdToken
      , .setProp "DistributionConfig.Origins.0.S3OriginConfig.OriginAccessIdentity" ""
      , .deleteProp "DistributionConfig.Origins.0.CustomOriginConfig" ]
    bucketPolicyStatements :=
      [ { effect := "Allow"
          actions := ["s3:GetObject"]
          resources := [bArn ++ "/*"]
          principals := ["cloudfront.amazonaws.com"]
          sourceArnCondition := some dArn } ]
    dnsRecords :=
      [ { zoneName := domainName
          recordName := none
          aliasTarget := "Distribution" }
      , { zoneName := domainName
          recordName := some "www"
          aliasTarget := "Distribution" } ]
    deployUserName := domainName ++ "-github-actions"
    deployPolicy :=
      { statements :=
          [ { effect := "Allow"
              actions :=
                [ "s3:PutObject"
                , "s3:PutObjectAcl"
                , "s3:GetObject"
                , "s3:DeleteObject"
                , "s3:ListBucket" ]
              resources := [bArn, bArn ++ "/*"]
              principals := []
              sourceArnCondition := none }
          , { effect := "Allow"
              actions := ["cloudfront:CreateInvalidation"]
              resources := [dArn]
              principals := []
              sourceArnCondition := none } ] }
    userAttachedPolicies := ["DeployPolicy"]
    outputs :=
      [ { outputId := "BucketName"
          value := bucketName
          description := "Name of the S3 bucket" }
      , { outputId := "DistributionId"
          value := distributionIdToken
          description := "CloudFront Distribution ID" }
      , { outputId := "DistributionDomainName"
          value := distributionDomainToken
          description := "CloudFront Distribution Domain Name" }
      , { outputId := "DeployUserName"
          value := domainName ++ "-github-actions"
          description := "IAM User for GitHub Actions" } ] }

/-- The order in which the constructor body declares resources and applies
the raw distribution patches, by construct id / step name.  Mirrors the
statement order of the constructor. -/
def synthOrder : List String :=
  [ "SiteBucket"
  , "OAC"
  , "HostedZone"
  , "SiteCertificate"
  , "UrlRewriteFn"
  , "Distribution"
  , "Patch:OriginAccessControlId"
  , "Patch:S3OriginConfig.OriginAccessIdentity"
  , "Patch:Delete.CustomOriginConfig"
  , "BucketPolicy:AllowCloudFrontRead"
  , "AliasRecord"
  , "WwwAliasRecord"
  , "GitHubActionsUser"
  , "DeployPolicy"
  , "AttachDeployPolicy"
  , "Output:BucketName"
  , "Output:DistributionId"
  , "Output:DistributionDomainName"
  , "Output:DeployUserName" ]

/-! ## DNS-label safety

`dnsLabelSafe` is the spec-side notion used by claim C7: a bucket name is
storage-naming-safe when it is 3 to 63 characters of lowercase letters,
digits and dashes, beginning and ending with a letter or digit. -/

/-- A character allowed anywhere in a DNS-label-safe bucket name. -/
def dnsSafeChar (c : Char) : Bool := c.isLower || c.isDigit || c == '-'

/-- A character allowed at the boundary of a DNS-label-safe bucket name. -/
def alnumLower (c : Char) : Bool := c.isLower || c.isDigit

/-- DNS-label safety of a bucket name: bounded length, safe characters,
and alphanumeric first and last characters. -/
def dnsLabelSafe (s : String) : Bool :=
  decide (3 ≤ s.length) && decide (s.length ≤ 63) &&
  s.data.all dnsSafeChar &&
  alnumLower (s.data.headD '-') &&
  alnumLower (s.data.reverse.headD '-')

/-! ## Concrete synthesis environment used to instantiate the theorems -/

/-- A concrete synthesis environment: a 12-digit account in some region. -/
def envW : Env := { account := "123456789012", region := "us-west-2" }

/-- The bucket resource-policy statement synthesized for `envW`. -/
def siteBucketStmtW : PolicyStatement :=
  { effect := "Allow"
    actions := ["s3:GetObject"]
    resources := ["arn:aws:s3:::fowler-dev-123456789012-hugo-site/*"]
    principals := ["cloudfront.amazonaws.com"]
    sourceArnCondition :=
      some "arn:aws:cloudfront::123456789012:distribution/ref:Distribution.Id" }

/-- The object-level deployment-policy statement synthesized for `envW`. -/
def deployStmt1W : PolicyStatement :=
  { effect := "Allow"
    actions :=
      [ "s3:PutObject", "s3:PutObjectAcl", "s3:GetObject"
      , "s3:DeleteObject", "s3:ListBucket" ]
    resources :=
      [ "arn:aws:s3:::fowler-dev-123456789012-hugo-site"
      , "arn:aws:s3:::fowler-dev-123456789012-hugo-site/*" ]
    principals := []
    sourceArnCondition := none }

/-! ## Helper lemmas -/

/-- Left-cancellation for string append. -/
theorem string_append_left_cancel {s t1 t2 : String}
    (h : s ++ t1 = s ++ t2) : t1 = t2 := by
  have h2 := congrArg String.data h
  rw [String.data_append, String.data_append] at h2
  exact String.ext (List.append_cancel_left h2)

/-- A string beginning with at least two characters is not the wildcard
resource `*`. -/
theorem append_ne_star {s : String} (t : String) (h : 2 ≤ s.length) :
    s ++ t ≠ "*" := by
  intro he
  have h2 := congrArg String.length he
  rw [String.length_append] at h2
  have hstar : ("*" : String).length = 1 := by decide
  omega

/-- Distribution ARNs built by the stack for a fixed account are injective
in the distribution identifier. -/
theorem distributionArn_inj {account d1 d2 : String}
    (h : distributionArn account d1 = distributionArn account d2) :
    d1 = d2 := by
  unfold distributionArn at h
  exact string_append_left_cancel h

/-- A distribution ARN is never the wildcard resource. -/
theorem distributionArn_ne_star (account d : String) :
    distributionArn account d ≠ "*" := by
  unfold distributionArn
  apply append_ne_star
  rw [String.length_append, String.length_append]
  have h20 : ("arn:aws:cloudfront::" : String).length = 20 := by decide
  omega

/-- A bucket ARN is never the wildcard resource. -/
theorem bucketArnOf_ne_star (name : String) : bucketArnOf name ≠ "*" := by
  unfold bucketArnOf
  apply append_ne_star
  decide

/-- A bucket objects ARN is never the wildcard resource. -/
theorem bucketArnObjects_ne_star (name : String) :
    bucketArnOf name ++ "/*" ≠ "*" := by
  apply append_ne_star
  unfold bucketArnOf
  rw [String.length_append]
  have h13 : ("arn:aws:s3:::" : String).length = 13 := by decide
  omega

/-- The character data of the derived bucket name splits into the
sanitized-domain piece, the account id, and the suffix. -/
theorem mkBucketName_data (account : String) :
    (mkBucketName account).data =
      "fowler-dev-".data ++ account.data ++ "-hugo-site".data := by
  show (((sanitizedDomain ++ "-") ++ account) ++ "-hugo-site").data = _
  rw [String.data_append, String.data_append]
  rw [show (sanitizedDomain ++ "-").data = "fowler-dev-".data from by decide]

/-- DNS-label safety of the assembled bucket-name character list. -/
theorem dnsLabelSafe_parts (acc : List Char)
    (h1 : 1 ≤ acc.length) (h2 : acc.length ≤ 42)
    (hd : acc.all Char.isDigit = true) :
    dnsLabelSafe ⟨"fowler-dev-".data ++ acc ++ "-hugo-site".data⟩ = true := by
  unfold dnsLabelSafe
  have hlenp : ("fowler-dev-".data).length = 11 := by decide
  have hlenq : ("-hugo-site".data).length = 10 := by decide
  simp only [Bool.and_eq_true, decide_eq_true_eq]
  refine ⟨⟨⟨⟨?_, ?_⟩, ?_⟩, ?_⟩, ?_⟩
  · show 3 ≤ ("fowler-dev-".data ++ acc ++ "-hugo-site".data).length
    simp only [List.length_append, hlenp, hlenq]
    omega
  · show ("fowler-dev-".data ++ acc ++ "-hugo-site".data).length ≤ 63
    simp only [List.length_append, hlenp, hlenq]
    omega
  · show (("fowler-dev-".data ++ acc ++ "-hugo-site".data).all dnsSafeChar) = true
    simp only [List.all_append, Bool.and_eq_true]
    refine ⟨⟨by decide, ?_⟩, by decide⟩
    rw [List.all_eq_true] at hd ⊢
    intro c hc
    have hdc := hd c hc
    simp [dnsSafeChar, hdc]
  · show alnumLower
      (("fowler-dev-".data ++ acc ++ "-hugo-site".data).headD '-') = true
    rw [show ("fowler-dev-".data : List Char) = 'f' :: "owler-dev-".data from
      by decide]
    simp [List.cons_append]
    decide
  · show alnumLower
      (("fowler-dev-".data ++ acc ++ "-hugo-site".data).reverse.headD '-') = true
    simp only [List.reverse_append]
    rw [show (("-hugo-site".data : List Char)).reverse = 'e' :: "tis-oguh-".data
      from by decide]
    simp [List.cons_append]
    decide

/-! ## Claim theorems -/

/-- Claim C1 (counterexample): the claim says the rewrite function returns
`/index.html` on input `/`, but the handler's length guard leaves `/`
unchanged; and on `/v1.0/about` the claim's final-segment dot test would
append `/index.html`, but the handler tests the whole path for a dot and
leaves it unchanged. -/
theorem urlRewrite_claim_counterexample :
    urlRewrite "/" = "/" ∧ claimRewrite "/" = "/index.html" ∧
    ("/" : String) ≠ "/index.html" ∧
    urlRewrite "/v1.0/about" = "/v1.0/about" ∧
    claimRewrite "/v1.0/about" = "/v1.0/about/index.html" ∧
    ("/v1.0/about" : String) ≠ "/v1.0/about/index.html" :=
  ⟨by decide, by decide, by decide, by decide, by decide, by decide⟩

/-- Claim C1 (amended): on every path of length greater than one the
handler appends `index.html` when the path ends in a slash, appends
`/index.html` when the whole path contains no dot, and otherwise leaves
the path unchanged; paths of length at most one, in particular the root
`/`, are returned unchanged.  Concretely `/blog/` maps to
`/blog/index.html`, `/about` to `/about/index.html`, `/style.css` and
`/` are unchanged. -/
theorem urlRewrite_amended (p : String) :
    urlRewrite p = amendedRewrite p ∧
    urlRewrite "/blog/" = "/blog/index.html" ∧
    urlRewrite "/about" = "/about/index.html" ∧
    urlRewrite "/style.css" = "/style.css" ∧
    urlRewrite "/" = "/" := by
  refine ⟨?_, by decide, by decide, by decide, by decide⟩
  unfold urlRewrite amendedRewrite
  by_cases h1 : 1 < p.length
  · have h1' : ¬ p.length ≤ 1 := by omega
    by_cases h2 : p.toList.getLastD ' ' = '/'
    · simp [h1, h1', h2]
    · by_cases h3 : p.toList.contains '.'
      · simp [h1, h1', h2, h3]
      · simp [h1, h1', h2, h3]
  · have h1' : p.length ≤ 1 := by omega
    simp [h1, h1']

/-- Claim C2: every resource-policy statement the stack adds to the site
bucket allows only the CloudFront service principal, and its only
source-ARN condition is this stack's own distribution ARN — never the
wildcard `*` and never the ARN of a different distribution. -/
theorem bucketPolicy_confused_deputy_guard (env : Env) :
    (fowlerDevStack env).bucketPolicyStatements.length = 1 ∧
    ∀ s ∈ (fowlerDevStack env).bucketPolicyStatements,
      s.effect = "Allow" ∧
      s.actions = ["s3:GetObject"] ∧
      s.principals = ["cloudfront.amazonaws.com"] ∧
      s.sourceArnCondition =
        some (distributionArn env.account
          (fowlerDevStack env).distribution.distributionId) ∧
      s.sourceArnCondition ≠ some "*" ∧
      ∀ d : String, d ≠ (fowlerDevStack env).distribution.distributionId →
        s.sourceArnCondition ≠ some (distributionArn env.account d) := by
  refine ⟨rfl, ?_⟩
  intro s hs
  cases hs with
  | tail _ h => cases h
  | head =>
    refine ⟨rfl, rfl, rfl, rfl, ?_, ?_⟩
    · intro h
      exact distributionArn_ne_star env.account distributionIdToken
        (Option.some.inj h)
    · intro d hd h
      exact hd (distributionArn_inj (Option.some.inj h)).symm

/-- Claim C2, instantiated at the concrete environment `envW`: the single
generated statement is in the bucket policy and carries the CloudFront
service principal and a non-wildcard source-ARN condition. -/
theorem bucketPolicy_guard_witness :
    siteBucketStmtW ∈ (fowlerDevStack envW).bucketPolicyStatements ∧
    siteBucketStmtW.principals = ["cloudfront.amazonaws.com"] ∧
    siteBucketStmtW.sourceArnCondition ≠ some "*" := by
  have hmem : siteBucketStmtW ∈ (fowlerDevStack envW).bucketPolicyStatements := by
    decide
  have h := (bucketPolicy_confused_deputy_guard envW).2 siteBucketStmtW hmem
  exact ⟨hmem, h.2.2.1, h.2.2.2.2.1⟩

/-- Claim C3: the deployment user has exactly one attached policy; its
document holds exactly two statements — the object-level
read/write/delete/list group scoped to the bucket ARN and the bucket ARN
plus `/*`, and the cache-invalidation group scoped to this stack's
distribution ARN — and every referenced resource is one of those three
ARNs, never the bare wildcard. -/
theorem deployPolicy_least_privilege (env : Env) :
    (fowlerDevStack env).userAttachedPolicies = ["DeployPolicy"] ∧
    (fowlerDevStack env).deployPolicy.statements.length = 2 ∧
    ((fowlerDevStack env).deployPolicy.statements.map PolicyStatement.actions) =
      [ [ "s3:PutObject", "s3:PutObjectAcl", "s3:GetObject"
        , "s3:DeleteObject", "s3:ListBucket" ]
      , [ "cloudfront:CreateInvalidation" ] ] ∧
    ((fowlerDevStack env).deployPolicy.statements.map PolicyStatement.resources) =
      [ [ bucketArnOf (mkBucketName env.account)
        , bucketArnOf (mkBucketName env.account) ++ "/*" ]
      , [ distributionArn env.account
            (fowlerDevStack env).distribution.distributionId ] ] ∧
    ∀ s ∈ (fowlerDevStack env).deployPolicy.statements,
      s.effect = "Allow" ∧
      ∀ r ∈ s.resources, r ≠ "*" ∧
        (r = bucketArnOf (mkBucketName env.account) ∨
         r = bucketArnOf (mkBucketName env.account) ++ "/*" ∨
         r = distributionArn env.account
               (fowlerDevStack env).distribution.distributionId) := by
  refine ⟨rfl, rfl, rfl, rfl, ?_⟩
  intro s hs
  cases hs with
  | head =>
    refine ⟨rfl, ?_⟩
    intro r hr
    cases hr with
    | head => exact ⟨bucketArnOf_ne_star _, Or.inl rfl⟩
    | tail _ h =>
      cases h with
      | head => exact ⟨bucketArnObjects_ne_star _, Or.inr (Or.inl rfl)⟩
      | tail _ h2 => cases h2
  | tail _ h =>
    cases h with
    | head =>
      refine ⟨rfl, ?_⟩
      intro r hr
      cases hr with
      | head => exact ⟨distributionArn_ne_star _ _, Or.inr (Or.inr rfl)⟩
      | tail _ h2 => cases h2
    | tail _ h2 => cases h2

/-- Claim C3, instantiated at `envW`: the object-level statement is in the
policy document and its bucket ARN resource is not the wildcard. -/
theorem deployPolicy_witness :
    deployStmt1W ∈ (fowlerDevStack envW).deployPolicy.statements ∧
    ("arn:aws:s3:::fowler-dev-123456789012-hugo-site" : String) ≠ "*" := by
  have hmem : deployStmt1W ∈ (fowlerDevStack envW).deployPolicy.statements := by
    decide
  have h := ((deployPolicy_least_privilege envW).2.2.2.2 deployStmt1W hmem).2
    "arn:aws:s3:::fowler-dev-123456789012-hugo-site" (by decide)
  exact ⟨hmem, h.1⟩

/-- Claim C4: in every synthesis environment the site bucket is created
with the full public-access block, no public read access, and no
website-hosting configuration, and every statement of its resource policy
names only the CloudFront service principal (no public principal). -/
theorem siteBucket_public_access_blocked (env : Env) :
    (fowlerDevStack env).siteBucket.publicReadAccess = false ∧
    (fowlerDevStack env).siteBucket.blockPublicAccess = blockAllFlags ∧
    (fowlerDevStack env).siteBucket.blockPublicAccess.blockPublicAcls = true ∧
    (fowlerDevStack env).siteBucket.blockPublicAccess.blockPublicPolicy = true ∧
    (fowlerDevStack env).siteBucket.blockPublicAccess.ignorePublicAcls = true ∧
    (fowlerDevStack env).siteBucket.blockPublicAccess.restrictPublicBuckets = true ∧
    (fowlerDevStack env).siteBucket.websiteIndexDocument = none ∧
    (fowlerDevStack env).siteBucket.websiteErrorDocument = none ∧
    ∀ s ∈ (fowlerDevStack env).bucketPolicyStatements,
      s.principals = ["cloudfront.amazonaws.com"] ∧
      ("*" : String) ∉ s.principals := by
  refine ⟨rfl, rfl, rfl, rfl, rfl, rfl, rfl, rfl, ?_⟩
  intro s hs
  cases hs with
  | head =>
    refine ⟨rfl, ?_⟩
    intro hmem
    have hcontra := List.mem_singleton.mp hmem
    exact absurd hcontra (by decide)
  | tail _ h => cases h

/-- Claim C4, instantiated at `envW`: the bucket has no public read
access, and the single bucket-policy statement names only the CloudFront
service principal. -/
theorem siteBucket_blocked_witness :
    (fowlerDevStack envW).siteBucket.publicReadAccess = false ∧
    siteBucketStmtW.principals = ["cloudfront.amazonaws.com"] := by
  obtain ⟨h1, -, -, -, -, -, -, -, h9⟩ := siteBucket_public_access_blocked envW
  exact ⟨h1, (h9 siteBucketStmtW (by decide)).1⟩

/-- Claim C5: the distribution's error-response list rewrites both an
origin 403 and an origin 404 to serve `/404.html` with outward status
404, each cached for 30 minutes (1800 seconds). -/
theorem errorResponses_rewrite_404 (env : Env) :
    (fowlerDevStack env).distribution.errorResponses =
      [ { httpStatus := 403, responseHttpStatus := 404
          responsePagePath := "/404.html", ttlSeconds := durationMinutes 30 }
      , { httpStatus := 404, responseHttpStatus := 404
          responsePagePath := "/404.html", ttlSeconds := durationMinutes 30 } ] ∧
    durationMinutes 30 = 1800 ∧
    ((fowlerDevStack env).distribution.errorResponses.map
      ErrorResponse.httpStatus) = [403, 404] ∧
    ∀ e ∈ (fowlerDevStack env).distribution.errorResponses,
      e.responseHttpStatus = 404 ∧ e.responsePagePath = "/404.html" ∧
      e.ttlSeconds = 30 * 60 := by
  refine ⟨rfl, rfl, rfl, ?_⟩
  intro e he
  cases he with
  | head => exact ⟨rfl, rfl, rfl⟩
  | tail _ h =>
    cases h with
    | head => exact ⟨rfl, rfl, rfl⟩
    | tail _ h2 => cases h2

/-- Claim C5, instantiated at `envW`: the 403 entry is in the list and
serves `/404.html` with status 404. -/
theorem errorResponses_witness :
    ({ httpStatus := 403, responseHttpStatus := 404,
       responsePagePath := "/404.html",
       ttlSeconds := durationMinutes 30 } : ErrorResponse).responseHttpStatus
        = 404 ∧
    ({ httpStatus := 403, responseHttpStatus := 404,
       responsePagePath := "/404.html",
       ttlSeconds := durationMinutes 30 } : ErrorResponse).responsePagePath
        = "/404.html" := by
  have h := (errorResponses_rewrite_404 envW).2.2.2
    { httpStatus := 403, responseHttpStatus := 404,
      responsePagePath := "/404.html", ttlSeconds := durationMinutes 30 }
    (by decide)
  exact ⟨h.1, h.2.1⟩

/-- Claim C6: the hostnames of the DNS alias records the stack creates
are exactly the distribution's configured domain names — the bare domain
and its `www` alias — and every record is an alias in the looked-up zone
targeting the distribution. -/
theorem dnsRecords_match_domainNames (env : Env) :
    ((fowlerDevStack env).dnsRecords.map recordHostname) =
      (fowlerDevStack env).distribution.domainNames ∧
    (fowlerDevStack env).distribution.domainNames =
      [domainName, "www." ++ domainName] ∧
    ((fowlerDevStack env).dnsRecords.map recordHostname) =
      ["fowler.dev", "www.fowler.dev"] ∧
    ∀ r ∈ (fowlerDevStack env).dnsRecords,
      r.zoneName = domainName ∧ r.aliasTarget = "Distribution" := by
  refine ⟨rfl, rfl, rfl, ?_⟩
  intro r hr
  cases hr with
  | head => exact ⟨rfl, rfl⟩
  | tail _ h =>
    cases h with
    | head => exact ⟨rfl, rfl⟩
    | tail _ h2 => cases h2

/-- Claim C6, instantiated at `envW`: the `www` record exists in the zone
of the bare domain and targets the distribution. -/
theorem dnsRecords_witness :
    ({ zoneName := "fowler.dev", recordName := some "www",
       aliasTarget := "Distribution" } : ARecordProps).zoneName = domainName ∧
    ({ zoneName := "fowler.dev", recordName := some "www",
       aliasTarget := "Distribution" } : ARecordProps).aliasTarget
        = "Distribution" := by
  have h := (dnsRecords_match_domainNames envW).2.2.2
    { zoneName := "fowler.dev", recordName := some "www",
      aliasTarget := "Distribution" }
    (by decide)
  exact h

/-- Claim C7: the bucket name is a pure function of the domain constant
and the account id: the domain's dots are replaced by dashes, and for an
account id of one to forty-two digits the resulting name is
DNS-label-safe; the name determines the account (global uniqueness per
account), and the synthesized bucket carries exactly this name. -/
theorem bucketName_pure_derivation (account : String)
    (hdigits : account.data.all Char.isDigit = true)
    (hlen1 : 1 ≤ account.length) (hlen2 : account.length ≤ 42) :
    (∀ env : Env, (fowlerDevStack env).siteBucket.bucketName =
      mkBucketName env.account) ∧
    mkBucketName account = sanitizedDomain ++ "-" ++ account ++ "-hugo-site" ∧
    sanitizedDomain = "fowler-dev" ∧
    dnsLabelSafe (mkBucketName account) = true ∧
    ∀ account2 : String,
      mkBucketName account = mkBucketName account2 → account = account2 := by
  refine ⟨fun env => rfl, rfl, by decide, ?_, ?_⟩
  · have hdata := mkBucketName_data account
    rw [String.ext hdata]
    refine dnsLabelSafe_parts account.data ?_ hlen2 hdigits
    exact hlen1
  · intro account2 h
    have h2 := congrArg String.data h
    rw [mkBucketName_data, mkBucketName_data] at h2
    exact String.ext
      (List.append_cancel_left (List.append_cancel_right h2))

/-- Claim C7, instantiated at the 12-digit account id of `envW`: the
hypotheses hold and the derived bucket name is DNS-label-safe. -/
theorem bucketName_witness :
    ("123456789012" : String).data.all Char.isDigit = true ∧
    1 ≤ ("123456789012" : String).length ∧
    ("123456789012" : String).length ≤ 42 ∧
    dnsLabelSafe (mkBucketName "123456789012") = true :=
  ⟨by decide, by decide, by decide,
    (bucketName_pure_derivation "123456789012"
      (by decide) (by decide) (by decide)).2.2.2.1⟩

/-- Claim C8: the stack declares an origin access control with
`signingBehavior = always` and `signingProtocol = sigv4`, and after the
distribution resource is declared it patches the origin by binding the
control's id, clearing the legacy origin-access-identity field, and
deleting the custom-origin configuration block. -/
theorem oac_binding_patch (env : Env) :
    (fowlerDevStack env).oac.signingBehavior = "always" ∧
    (fowlerDevStack env).oac.signingProtocol = "sigv4" ∧
    (fowlerDevStack env).oac.originAccessControlOriginType = "s3" ∧
    (fowlerDevStack env).distributionPatches =
      [ PropertyPatch.setProp
          "DistributionConfig.Origins.0.OriginAccessControlId" oacAttrIdToken
      , PropertyPatch.setProp
          "DistributionConfig.Origins.0.S3OriginConfig.OriginAccessIdentity" ""
      , PropertyPatch.deleteProp
          "DistributionConfig.Origins.0.CustomOriginConfig" ] ∧
    synthOrder.indexOf "Distribution" <
      synthOrder.indexOf "Patch:OriginAccessControlId" ∧
    synthOrder.indexOf "Distribution" <
      synthOrder.indexOf "Patch:S3OriginConfig.OriginAccessIdentity" ∧
    synthOrder.indexOf "Distribution" <
      synthOrder.indexOf "Patch:Delete.CustomOriginConfig" :=
  ⟨rfl, rfl, rfl, rfl, by decide, by decide, by decide⟩

/-- Claim C9: the certificate covers the bare domain with the single
subject-alternative name `www.fowler.dev`, is DNS-validated against the
looked-up zone of the bare domain, and is requested in `us-east-1` in
every synthesis environment, whatever the stack's own region. -/
theorem certificate_region_and_sans (env : Env) :
    (fowlerDevStack env).certificate.domainName = domainName ∧
    (fowlerDevStack env).certificate.subjectAlternativeNames =
      ["www." ++ domainName] ∧
    (fowlerDevStack env).certificate.subjectAlternativeNames =
      ["www.fowler.dev"] ∧
    (fowlerDevStack env).certificate.dnsValidated = true ∧
    (fowlerDevStack env).certificate.hostedZoneName =
      (fowlerDevStack env).hostedZoneName ∧
    (fowlerDevStack env).hostedZoneName = domainName ∧
    (fowlerDevStack env).certificate.region = "us-east-1" :=
  ⟨rfl, rfl, rfl, rfl, rfl, rfl, rfl⟩

/-- Claim C10: stack synthesis is deterministic — two synthesis
environments with the same account produce identical stacks, in
particular the same bucket name, deployment user name, policy documents,
domain-name set, and outputs. -/
theorem synthesis_deterministic (e1 e2 : Env)
    (h : e1.account = e2.account) :
    fowlerDevStack e1 = fowlerDevStack e2 ∧
    (fowlerDevStack e1).siteBucket.bucketName =
      (fowlerDevStack e2).siteBucket.bucketName ∧
    (fowlerDevStack e1).deployUserName = (fowlerDevStack e2).deployUserName ∧
    (fowlerDevStack e1).deployPolicy = (fowlerDevStack e2).deployPolicy ∧
    (fowlerDevStack e1).bucketPolicyStatements =
      (fowlerDevStack e2).bucketPolicyStatements ∧
    (fowlerDevStack e1).distribution.domainNames =
      (fowlerDevStack e2).distribution.domainNames ∧
    (fowlerDevStack e1).outputs = (fowlerDevStack e2).outputs := by
  obtain ⟨a1, r1⟩ := e1
  obtain ⟨a2, r2⟩ := e2
  have ha : a1 = a2 := h
  subst ha
  exact ⟨rfl, rfl, rfl, rfl, rfl, rfl, rfl⟩

/-- Claim C10, instantiated: the same account synthesized in two
different regions yields the same stack. -/
theorem synthesis_deterministic_witness :
    (Env.mk "123456789012" "us-west-2").account =
      (Env.mk "123456789012" "eu-central-1").account ∧
    fowlerDevStack (Env.mk "123456789012" "us-west-2") =
      fowlerDevStack (Env.mk "123456789012" "eu-central-1") :=
  ⟨rfl,
    (synthesis_deterministic
      (Env.mk "123456789012" "us-west-2")
      (Env.mk "123456789012" "eu-central-1") rfl).1⟩

end FowlerDev
